import Mathlib

/-!
Verification of the SSML parsing/serialization library (src/ssml.py).

The development shallowly embeds the Python module: strings are Lean
`String`/`List Char`, the regular-expression operations of the source are
translated into explicit character scanners, Python dictionaries that keep
insertion order become association lists, and exceptions become `Except`
values.  The external collaborators (`xml.etree.ElementTree.fromstring` and
`html.unescape`) are modelled as executable Lean functions faithful to their
behaviour on the class of documents this pipeline feeds them (no namespaces,
no comments or processing instructions, double-quoted attribute values, the
XML predefined entities and numeric character references).
-/

namespace SSMLVerif

/-- Double-quote character, kept as a named constant. -/
def dquoteChar : Char := Char.ofNat 34

/-- Single-quote character, kept as a named constant. -/
def squoteChar : Char := Char.ofNat 39

/-- Characters Python's `str.strip()` and the regex class `\s` treat as
whitespace (ASCII range): space, tab, newline, carriage return, form feed,
vertical tab. -/
def isPyWhite (c : Char) : Bool :=
  c = ' ' || c.toNat = 9 || c.toNat = 10 || c.toNat = 13 || c.toNat = 12 || c.toNat = 11

/-- XML whitespace as recognized by the XML parser: space, tab, newline,
carriage return. -/
def isXmlWhite (c : Char) : Bool :=
  c = ' ' || c.toNat = 9 || c.toNat = 10 || c.toNat = 13

/-- True when the string has at least one non-whitespace character, i.e. the
Python test `s.strip() != ""`. -/
def hasNonWhite (s : String) : Bool :=
  s.data.any (fun c => !(isPyWhite c))

/-- Python truthiness-plus-strip test `x and x.strip() != ""` applied to an
optional string field. -/
def optNonWhite : Option String → Bool
  | none => false
  | some t => hasNonWhite t

/-!
## Data model

`SSMLTag` / `SSMLText` from the source become the two constructors of one
inductive; a tag holds its name, the attribute mapping as an insertion-ordered
association list, and the ordered children.
-/

/-- Domain tree: `tag` embeds the Python class `SSMLTag` (name, attribute
mapping in insertion order, ordered children) and `text` embeds `SSMLText`. -/
inductive SSMLNode where
  | tag (name : String) (attributes : List (String × String)) (children : List SSMLNode)
  | text (s : String)
deriving Repr

/-!
## Preprocessor: single-quoted attribute detection

Embeds line 69 of src/ssml.py:
`"'" in ssml and re.search(r"=\s*'[^']*'", ssml)`.
-/

/-- Attempt to match the regex `=\s*'[^']*'` starting right after an `=` that
is at the head of the scan position: skip Python whitespace, require a single
quote, and require a later closing single quote. -/
def sqAfterEq (l : List Char) : Bool :=
  match l.dropWhile isPyWhite with
  | [] => false
  | q :: rest => q = squoteChar && rest.any (fun c => c = squoteChar)

/-- Scan for a match of `=\s*'[^']*'` anywhere in the character list, the
search semantics of `re.search`. -/
def sqSearch : List Char → Bool
  | [] => false
  | c :: rest => (c = '=' && sqAfterEq rest) || sqSearch rest

/-- Embeds the test on line 69 of src/ssml.py: the input contains a single
quote and the pattern `=\s*'[^']*'` occurs somewhere in it. -/
def hasSingleQuotedAttr (ssml : String) : Bool :=
  ssml.data.any (fun c => c = squoteChar) && sqSearch ssml.data

/-!
## Preprocessor: tag whitespace normalization

Embeds `_normalize_tag_whitespace` (lines 40-56).  The outer
`re.sub(r'<[^>]+>', fix_tag, s)` rewrites every span from a `<` to the next
`>` (with at least one character between) by `fix_tag`; `fix_tag` applies the
four inner substitutions in order.
-/

/-- Inner substitution 1, `re.sub(r'^<\s+', '<', tag)`: drop the whitespace
run immediately after a leading `<`. -/
def stripAfterLt (l : List Char) : List Char :=
  match l with
  | c :: c2 :: rest =>
    if c = '<' && isPyWhite c2 then c :: (c2 :: rest).dropWhile isPyWhite else l
  | _ => l

/-- Inner substitution 2, `re.sub(r'^</\s+', '</', tag)`: drop the whitespace
run immediately after a leading `</`. -/
def stripAfterLtSlash (l : List Char) : List Char :=
  match l with
  | c :: s :: c3 :: rest =>
    if c = '<' && s = '/' && isPyWhite c3 then
      c :: s :: (c3 :: rest).dropWhile isPyWhite
    else l
  | _ => l

/-- Inner substitution 3, `re.sub(r'\s+>$', '>', tag)`: drop the whitespace
run immediately before a trailing `>`. -/
def stripBeforeGt (l : List Char) : List Char :=
  match l.reverse with
  | g :: c2 :: rest =>
    if g = '>' && isPyWhite c2 then (g :: (c2 :: rest).dropWhile isPyWhite).reverse
    else l
  | _ => l

/-- Attempt the regex `<(/?)(\S+)\s+` with the scan position right after a
`<`: an optional slash (tried greedily first), a maximal nonempty run of
non-whitespace, then a required whitespace run, which the replacement
collapses to a single space.  Returns the rewritten remainder on a match. -/
def collapseTryAt (l : List Char) : Option (List Char) :=
  let noSlash : Option (List Char) :=
    let r := l.takeWhile (fun c => !(isPyWhite c))
    let rem := l.dropWhile (fun c => !(isPyWhite c))
    if r ≠ [] && rem ≠ [] then some (r ++ ' ' :: rem.dropWhile isPyWhite) else none
  match l with
  | s :: rest2 =>
    if s = '/' then
      let r := rest2.takeWhile (fun c => !(isPyWhite c))
      let rem := rest2.dropWhile (fun c => !(isPyWhite c))
      if r ≠ [] && rem ≠ [] then some (s :: (r ++ ' ' :: rem.dropWhile isPyWhite))
      else noSlash
    else noSlash
  | [] => none

/-- Inner substitution 4, `re.sub(r'<(/?)(\S+)\s+', ..., tag, count=1)`:
rewrite only the first match, collapsing the whitespace run after the tag
name to one space. -/
def collapseNameSpace : List Char → List Char
  | [] => []
  | c :: rest =>
    if c = '<' then
      match collapseTryAt rest with
      | some out => c :: out
      | none => c :: collapseNameSpace rest
    else c :: collapseNameSpace rest

/-- The `fix_tag` function of the source: the four substitutions in order. -/
def fixTag (l : List Char) : List Char :=
  collapseNameSpace (stripBeforeGt (stripAfterLtSlash (stripAfterLt l)))

/-- Split at the first `>` in the list, returning the characters before it
and the characters after it. -/
def splitAtGt : List Char → Option (List Char × List Char)
  | [] => none
  | c :: rest =>
    if c = '>' then some ([], rest)
    else
      match splitAtGt rest with
      | some (a, b) => some (c :: a, b)
      | none => none

/-- The outer `re.sub(r'<[^>]+>', fix_tag, s)` scan: each leftmost span from
a `<` to the following `>` with nonempty interior is rewritten by `fixTag`,
scanning resumes after the span.  The fuel argument only serves structural
termination; every recursive call strictly shortens the list, so any fuel of
at least the list's length is enough and the wrapper supplies it. -/
def normScan (fuel : Nat) (l : List Char) : List Char :=
  match fuel with
  | 0 => l
  | fuel + 1 =>
    match l with
    | [] => []
    | c :: rest =>
      if c = '<' then
        match splitAtGt rest with
        | some (content, rest2) =>
          if content = [] then c :: normScan fuel rest
          else fixTag (c :: (content ++ ['>'])) ++ normScan fuel rest2
        | none => c :: normScan fuel rest
      else c :: normScan fuel rest

/-- Embeds `_normalize_tag_whitespace` (lines 40-56 of src/ssml.py). -/
def normalize_tag_whitespace (s : String) : String :=
  String.mk (normScan (s.data.length + 1) s.data)

/-!
## Preprocessor: colon-bearing attribute names

Embeds lines 76-78: the placeholder `__COLON__` and the global substitution
of `([A-Za-z0-9_\-\.]+):([A-Za-z0-9_\-\.]+)\s*=` by `\1__COLON__\2=`.
-/

/-- The placeholder the source substitutes for a colon in attribute names. -/
def placeholderChars : List Char := "__COLON__".data

/-- Character class `[A-Za-z0-9_\-\.]` of the attribute-name pattern. -/
def isAttrNameChar (c : Char) : Bool :=
  (c ≥ 'A' && c ≤ 'Z') || (c ≥ 'a' && c ≤ 'z') || (c ≥ '0' && c ≤ '9') ||
    c = '_' || c = '-' || c = '.'

/-- Attempt the pattern `name1:name2\s*=` at the current scan position:
maximal nonempty run of name characters, a colon, another maximal nonempty
run, optional whitespace, then an equals sign.  On a match, return the
replacement `name1__COLON__name2=` and the remainder after the `=`. -/
def colonTryAt : List Char → Option (List Char × List Char)
  | [] => none
  | c :: rest =>
    if isAttrNameChar c then
      let r1 := (c :: rest).takeWhile isAttrNameChar
      let rest1 := (c :: rest).dropWhile isAttrNameChar
      match rest1 with
      | d :: rest2 =>
        if d = ':' then
          let r2 := rest2.takeWhile isAttrNameChar
          let rest3 := rest2.dropWhile isAttrNameChar
          if r2 = [] then none
          else
            match rest3.dropWhile isPyWhite with
            | e :: rest5 =>
              if e = '=' then
                some (r1 ++ placeholderChars ++ r2 ++ ['='], rest5)
              else none
            | [] => none
        else none
      | [] => none
    else none

/-- Embeds the global substitution `attr_colon_pattern.sub(...)` (line 78):
leftmost matches rewritten, scanning resuming after each match.  Fuel as in
`normScan`: any fuel of at least the list's length is enough. -/
def colonScan (fuel : Nat) (l : List Char) : List Char :=
  match fuel with
  | 0 => l
  | fuel + 1 =>
    match l with
    | [] => []
    | c :: rest =>
      match colonTryAt (c :: rest) with
      | some (rep, rest2) => rep ++ colonScan fuel rest2
      | none => c :: colonScan fuel rest

/-- Embeds lines 76-78 of src/ssml.py: protect colons in attribute names by
the placeholder before the text reaches the XML parser. -/
def escapeColonAttrNames (s : String) : String :=
  String.mk (colonScan (s.data.length + 1) s.data)

/-- Embeds `k.replace(placeholder, ":")` (line 108): replace every
occurrence of `__COLON__` by a colon, scanning left to right.  Fuel as in
`normScan`. -/
def restoreColons (fuel : Nat) (l : List Char) : List Char :=
  match fuel with
  | 0 => l
  | fuel + 1 =>
    match l with
    | [] => []
    | c :: rest =>
      if placeholderChars.isPrefixOf (c :: rest) then
        ':' :: restoreColons fuel (rest.drop (placeholderChars.length - 1))
      else c :: restoreColons fuel rest

/-- Key restoration applied to every parsed attribute key. -/
def restoreColonsKey (k : String) : String :=
  String.mk (restoreColons (k.data.length + 1) k.data)

/-!
## Model of `html.unescape`

Modelled external collaborator: Python's `html.unescape`, restricted to the
character-reference forms this pipeline can feed it (text already decoded
once by the XML parser): the five XML named references `amp; lt; gt; quot;
apos;`, the legacy semicolon-less forms of `amp`, `lt`, `gt`, `quot`, and
valid numeric character references with a semicolon.  Unknown references are
left unchanged, as `html.unescape` does.
-/

/-- Decoded replacement for a named reference written with its semicolon. -/
def namedRefSemi (nm : List Char) : Option Char :=
  if nm = "amp".data then some '&'
  else if nm = "lt".data then some '<'
  else if nm = "gt".data then some '>'
  else if nm = "quot".data then some dquoteChar
  else if nm = "apos".data then some squoteChar
  else none

/-- Longest legacy (semicolon-less) entity name that is a prefix of the run,
with the decoded character and the name's length. -/
def legacyRef (run : List Char) : Option (Char × Nat) :=
  if "quot".data.isPrefixOf run then some (dquoteChar, 4)
  else if "amp".data.isPrefixOf run then some ('&', 3)
  else if "lt".data.isPrefixOf run then some ('<', 2)
  else if "gt".data.isPrefixOf run then some ('>', 2)
  else none

/-- Hexadecimal digit test. -/
def isHexDigit (c : Char) : Bool :=
  c.isDigit || (c ≥ 'a' && c ≤ 'f') || (c ≥ 'A' && c ≤ 'F')

/-- Value of one hexadecimal digit. -/
def hexDigitVal (c : Char) : Nat :=
  if c.isDigit then c.toNat - 48
  else if c ≥ 'a' && c ≤ 'f' then c.toNat - 87
  else c.toNat - 55

/-- Numeric value of a hexadecimal digit run. -/
def hexVal (l : List Char) : Nat :=
  l.foldl (fun acc c => acc * 16 + hexDigitVal c) 0

/-- Numeric value of a decimal digit run. -/
def decVal (l : List Char) : Nat :=
  l.foldl (fun acc c => acc * 10 + (c.toNat - 48)) 0

/-- Unicode scalar values (excluding surrogates and out-of-range values). -/
def isScalarValue (n : Nat) : Bool :=
  n < 0xD800 || (n ≥ 0xE000 && n ≤ 0x10FFFF)

/-- Attempt to decode one character reference with the scan position right
after a `&`: returns the decoded output and the remainder after the match,
or `none` when nothing matches (the `&` then stays as literal text). -/
def unescTryAt (l : List Char) : Option (List Char × List Char) :=
  match l with
  | [] => none
  | c :: rest =>
    if c = '#' then
      match rest with
      | x :: rest2 =>
        if x = 'x' || x = 'X' then
          let ds := rest2.takeWhile isHexDigit
          match rest2.dropWhile isHexDigit with
          | s :: rest3 =>
            if ds ≠ [] && s = ';' && isScalarValue (hexVal ds) then
              some ([Char.ofNat (hexVal ds)], rest3)
            else none
          | [] => none
        else
          let ds := rest.takeWhile Char.isDigit
          match rest.dropWhile Char.isDigit with
          | s :: rest3 =>
            if ds ≠ [] && s = ';' && isScalarValue (decVal ds) then
              some ([Char.ofNat (decVal ds)], rest3)
            else none
          | [] => none
      | [] => none
    else
      let run := (c :: rest).takeWhile (fun d => d.isAlphanum)
      let after := (c :: rest).dropWhile (fun d => d.isAlphanum)
      match after with
      | s :: rest3 =>
        if s = ';' then
          match namedRefSemi run with
          | some ch => some ([ch], rest3)
          | none =>
            match legacyRef run with
            | some (ch, n) => some (ch :: (run.drop n ++ [';']), rest3)
            | none => none
        else
          match legacyRef run with
          | some (ch, n) => some (ch :: run.drop n, s :: rest3)
          | none => none
      | [] =>
        match legacyRef run with
        | some (ch, n) => some (ch :: run.drop n, [])
        | none => none

/-- The scan of `html.unescape`: at each `&`, decode a reference when one
matches, otherwise keep the character. -/
def unescScan (fuel : Nat) (l : List Char) : List Char :=
  match fuel with
  | 0 => l
  | fuel + 1 =>
    match l with
    | [] => []
    | c :: rest =>
      if c = '&' then
        match unescTryAt rest with
        | some (out, rest2) => out ++ unescScan fuel rest2
        | none => c :: unescScan fuel rest
      else c :: unescScan fuel rest

/-- Modelled external collaborator `html.unescape` (see the section note for
its modelled scope). -/
def htmlUnescape (s : String) : String :=
  String.mk (unescScan (s.data.length + 1) s.data)

/-!
## Model of `xml.etree.ElementTree.fromstring`

Modelled external collaborator: a generic XML parser producing an element
tree with, per element, the tag name, the attribute mapping in document
order, the leading text (`None` when no character data occurred), the
ordered children and each element's tail text.  The model covers the
documents this pipeline produces after preprocessing and wrapping: plain
elements with double-quoted attribute values, character data with the XML
predefined entities and numeric character references, no namespace prefixes,
comments, processing instructions, doctypes or CDATA sections.  Every
violation is a parse error, as the strict expat parser reports one.
-/

/-- Element-tree node: tag name, attributes in document order, leading text,
children in document order, and tail text. -/
inductive ETElem where
  | mk (tag : String) (attrib : List (String × String)) (text : Option String)
       (children : List ETElem) (tail : Option String)
deriving Repr

/-- Tag name of an element. -/
def ETElem.tag : ETElem → String
  | .mk t _ _ _ _ => t

/-- Attribute mapping of an element. -/
def ETElem.attrib : ETElem → List (String × String)
  | .mk _ a _ _ _ => a

/-- Leading text of an element. -/
def ETElem.text : ETElem → Option String
  | .mk _ _ x _ _ => x

/-- Children of an element. -/
def ETElem.children : ETElem → List ETElem
  | .mk _ _ _ c _ => c

/-- Tail text of an element. -/
def ETElem.tail : ETElem → Option String
  | .mk _ _ _ _ t => t

/-- Replace the tail of an element. -/
def ETElem.withTail : ETElem → Option String → ETElem
  | .mk t a x c _, tl => .mk t a x c tl

/-- Name characters accepted for tag and attribute names. -/
def isNameChar (c : Char) : Bool :=
  c.isAlphanum || c = '_' || c = '-' || c = '.' || c = ':'

/-- Decode one XML character or entity reference, the scan position right
after the `&`; strict: any malformed or unknown reference is an error. -/
def xmlReadRef (l : List Char) : Except String (Char × List Char) :=
  match l with
  | [] => .error "not well-formed: bare ampersand"
  | c :: rest =>
    if c = '#' then
      match rest with
      | [] => .error "not well-formed: bad character reference"
      | x :: rest2 =>
        if x = 'x' || x = 'X' then
          let ds := rest2.takeWhile isHexDigit
          match rest2.dropWhile isHexDigit with
          | s :: rest3 =>
            if ds ≠ [] && s = ';' then
              if isScalarValue (hexVal ds) && validXmlChar (hexVal ds) then
                .ok (Char.ofNat (hexVal ds), rest3)
              else .error "reference to invalid character number"
            else .error "not well-formed: bad character reference"
          | [] => .error "not well-formed: bad character reference"
        else
          let ds := rest.takeWhile Char.isDigit
          match rest.dropWhile Char.isDigit with
          | s :: rest3 =>
            if ds ≠ [] && s = ';' then
              if isScalarValue (decVal ds) && validXmlChar (decVal ds) then
                .ok (Char.ofNat (decVal ds), rest3)
              else .error "reference to invalid character number"
            else .error "not well-formed: bad character reference"
          | [] => .error "not well-formed: bad character reference"
    else
      let nm := l.takeWhile (fun d => d.isAlphanum)
      match l.dropWhile (fun d => d.isAlphanum) with
      | s :: rest3 =>
        if s = ';' then
          match namedRefSemi nm with
          | some ch => .ok (ch, rest3)
          | none => .error "undefined entity"
        else .error "not well-formed: bad entity reference"
      | [] => .error "not well-formed: bad entity reference"
where
  /-- Characters allowed in XML documents. -/
  validXmlChar (n : Nat) : Bool :=
    n = 9 || n = 10 || n = 13 || (n ≥ 32 && n ≤ 0xD7FF) ||
      (n ≥ 0xE000 && n ≤ 0xFFFD) || (n ≥ 0x10000 && n ≤ 0x10FFFF)

/-- Turn accumulated character data into the optional text field: no
characters at all means `None`. -/
def textOpt (l : List Char) : Option String :=
  if l = [] then none else some (String.mk l)

mutual

/-- Parse character data up to the next `<` or the end of input, decoding
references. -/
def xmlText (fuel : Nat) (l : List Char) : Except String (List Char × List Char) :=
  match fuel with
  | 0 => .error "internal: fuel exhausted"
  | fuel + 1 =>
    match l with
    | [] => .ok ([], [])
    | c :: rest =>
      if c = '<' then .ok ([], c :: rest)
      else if c = '&' then
        match xmlReadRef rest with
        | .error e => .error e
        | .ok (ch, rest2) =>
          match xmlText fuel rest2 with
          | .error e => .error e
          | .ok (txt, rest3) => .ok (ch :: txt, rest3)
      else
        match xmlText fuel rest with
        | .error e => .error e
        | .ok (txt, rest3) => .ok (c :: txt, rest3)

/-- Parse one double-quoted attribute value, the scan position right after
the opening quote; returns the decoded value and the remainder after the
closing quote. -/
def xmlAttrValue (fuel : Nat) (l : List Char) : Except String (List Char × List Char) :=
  match fuel with
  | 0 => .error "internal: fuel exhausted"
  | fuel + 1 =>
    match l with
    | [] => .error "unclosed token"
    | c :: rest =>
      if c = dquoteChar then .ok ([], rest)
      else if c = '<' then .error "not well-formed: < in attribute value"
      else if c = '&' then
        match xmlReadRef rest with
        | .error e => .error e
        | .ok (ch, rest2) =>
          match xmlAttrValue fuel rest2 with
          | .error e => .error e
          | .ok (v, rest3) => .ok (ch :: v, rest3)
      else
        match xmlAttrValue fuel rest with
        | .error e => .error e
        | .ok (v, rest3) => .ok (c :: v, rest3)

/-- Parse the attribute list of an open tag, the scan position after the
whitespace following the name; returns the attributes, whether the tag was
self-closing, and the remainder after the `>`. -/
def xmlAttrs (fuel : Nat) (acc : List (String × String)) (l : List Char) :
    Except String (List (String × String) × Bool × List Char) :=
  match fuel with
  | 0 => .error "internal: fuel exhausted"
  | fuel + 1 =>
    match l with
    | [] => .error "unclosed token"
    | c :: rest =>
      if c = '>' then .ok (acc, false, rest)
      else if c = '/' then
        match rest with
        | g :: rest2 =>
          if g = '>' then .ok (acc, true, rest2)
          else .error "not well-formed: bad tag"
        | [] => .error "unclosed token"
      else if isNameChar c then
        let k := (c :: rest).takeWhile isNameChar
        let afterK := ((c :: rest).dropWhile isNameChar).dropWhile isXmlWhite
        match afterK with
        | e :: rest2 =>
          if e = '=' then
            match rest2.dropWhile isXmlWhite with
            | q :: rest3 =>
              if q = dquoteChar then
                match xmlAttrValue fuel rest3 with
                | .error err => .error err
                | .ok (v, rest4) =>
                  if acc.any (fun kv => kv.1 = String.mk k) then
                    .error "duplicate attribute"
                  else
                    match rest4 with
                    | [] => .error "unclosed token"
                    | d :: _ =>
                      if isXmlWhite d || d = '>' || d = '/' then
                        xmlAttrs fuel (acc ++ [(String.mk k, String.mk v)])
                          (rest4.dropWhile isXmlWhite)
                      else .error "not well-formed: bad attribute"
              else .error "not well-formed: unquoted attribute value"
            | [] => .error "unclosed token"
          else .error "not well-formed: expected ="
        | [] => .error "unclosed token"
      else .error "not well-formed: bad tag"

/-- Parse one element, the scan position at its `<`; the element's tail is
left `None` (the caller fills it in). -/
def xmlElement (fuel : Nat) (l : List Char) : Except String (ETElem × List Char) :=
  match fuel with
  | 0 => .error "internal: fuel exhausted"
  | fuel + 1 =>
    match l with
    | [] => .error "no element found"
    | c :: rest =>
      if c = '<' then
        let nm := rest.takeWhile isNameChar
        if nm = [] then .error "not well-formed: bad tag name"
        else
          let afterNm := (rest.dropWhile isNameChar).dropWhile isXmlWhite
          match xmlAttrs fuel [] afterNm with
          | .error e => .error e
          | .ok (attrs, selfClosing, rest2) =>
            if selfClosing then
              .ok (.mk (String.mk nm) attrs none [] none, rest2)
            else
              match xmlContent fuel rest2 with
              | .error e => .error e
              | .ok (txt, children, rest3) =>
                match rest3 with
                | c1 :: c2 :: rest4 =>
                  if c1 = '<' && c2 = '/' then
                    let cnm := rest4.takeWhile isNameChar
                    if cnm = nm then
                      match (rest4.dropWhile isNameChar).dropWhile isXmlWhite with
                      | g :: rest5 =>
                        if g = '>' then
                          .ok (.mk (String.mk nm) attrs txt children none, rest5)
                        else .error "not well-formed: bad closing tag"
                      | [] => .error "unclosed token"
                    else .error "mismatched tag"
                  else .error "no element found"
                | _ => .error "no element found"
      else .error "no element found"

/-- Parse mixed content up to the `</` closing the enclosing element:
returns the leading text, the children each carrying its tail, and the
remainder positioned at the `</`. -/
def xmlContent (fuel : Nat) (l : List Char) :
    Except String (Option String × List ETElem × List Char) :=
  match fuel with
  | 0 => .error "internal: fuel exhausted"
  | fuel + 1 =>
    match xmlText fuel l with
    | .error e => .error e
    | .ok (txt, rest) =>
      match rest with
      | [] => .error "no element found: unclosed element"
      | c :: d :: rest2 =>
        if d = '/' then .ok (textOpt txt, [], c :: d :: rest2)
        else
          match xmlElement fuel (c :: d :: rest2) with
          | .error e => .error e
          | .ok (elem, restA) =>
            match xmlContent fuel restA with
            | .error e => .error e
            | .ok (tailTxt, siblings, restB) =>
              .ok (textOpt txt, elem.withTail tailTxt :: siblings, restB)
      | _ :: [] => .error "no element found: unclosed element"

end

/-- Modelled external collaborator `ET.fromstring` (see the section note for
its modelled scope): parse a whole document into its root element. -/
def fromstring (s : String) : Except String ETElem :=
  match xmlElement (2 * s.length + 16) (s.data.dropWhile isXmlWhite) with
  | .error e => .error e
  | .ok (root, rest) =>
    if rest.dropWhile isXmlWhite = [] then .ok root
    else .error "junk after document element"

/-!
## Parser/Builder

Embeds `parseSSML` (lines 59-123 of src/ssml.py).  The Python function
raises two distinct kinds of exception: its own dialect-rule violations
raise a plain `Exception(reason)` (the error the specification calls
`MalformedInputError`), embedded as `SSMLError.malformed`, while an
`ET.ParseError` from the XML library is re-raised unwrapped (lines 83-87),
embedded as `SSMLError.xmlParseError`.
-/

/-- Error outcome of `parseSSML`: `malformed` embeds the plain
`Exception(reason)` the source raises for its own dialect rules;
`xmlParseError` embeds an `ET.ParseError` propagated unwrapped. -/
inductive SSMLError where
  | malformed (msg : String)
  | xmlParseError (msg : String)
deriving Repr, DecidableEq

mutual

/-- Embeds the recursive `build` (lines 105-117): copy the tag name, restore
colons in attribute keys, and append non-whitespace text and tails as
`SSMLText` children with `html.unescape` applied. -/
def build (e : ETElem) : SSMLNode :=
  match e with
  | .mk tag attrib text children _ =>
    let attrs := attrib.map (fun kv => (restoreColonsKey kv.1, kv.2))
    let leading : List SSMLNode :=
      match text with
      | some t => if hasNonWhite t then [SSMLNode.text (htmlUnescape t)] else []
      | none => []
    SSMLNode.tag tag attrs (leading ++ buildChildren children)

/-- The loop over `list(elem)` in `build`: each child followed by its
non-whitespace tail as a `SSMLText`. -/
def buildChildren (cs : List ETElem) : List SSMLNode :=
  match cs with
  | [] => []
  | c :: rest =>
    let tailNodes : List SSMLNode :=
      match c.tail with
      | some t => if hasNonWhite t then [SSMLNode.text (htmlUnescape t)] else []
      | none => []
    build c :: (tailNodes ++ buildChildren rest)

end

/-- The preprocessed and wrapped text handed to the XML parser (lines 72-81
of src/ssml.py). -/
def wrapInput (ssml : String) : String :=
  "<root>" ++ escapeColonAttrNames (normalize_tag_whitespace ssml) ++ "</root>"

/-- Embeds `parseSSML` (lines 59-123 of src/ssml.py). -/
def parseSSML (ssml : String) : Except SSMLError SSMLNode :=
  if hasSingleQuotedAttr ssml then
    .error (.malformed "single-quoted attributes are not allowed")
  else
    match fromstring (wrapInput ssml) with
    | .error e => .error (.xmlParseError e)
    | .ok root_elem =>
      if optNonWhite root_elem.text then .error (.malformed "Invalid top-level text")
      else
        match root_elem.children with
        | [first_child] =>
          if optNonWhite first_child.tail then
            .error (.malformed "Invalid top-level text")
          else
            match build first_child with
            | SSMLNode.tag n a c =>
              if n = "speak" then .ok (SSMLNode.tag n a c)
              else .error (.malformed "Top-level tag must be <speak>")
            | SSMLNode.text t => .error (.malformed "Top-level tag must be <speak>")
        | _ => .error (.malformed "Multiple top-level tags or missing speak tag")

/-!
## Serializer

Embeds `ssmlNodeToText` (lines 126-137 of src/ssml.py).
-/

mutual

/-- Embeds `ssmlNodeToText`: a text node is its stored string; a tag node is
its opening tag (attributes in mapping order, values in double quotes,
nothing escaped), the serialized children, and the closing tag. -/
def ssmlNodeToText (node : SSMLNode) : String :=
  match node with
  | .text s => s
  | .tag name attributes children =>
    let attrs : String :=
      if attributes = [] then ""
      else
        " " ++ String.intercalate " "
          (attributes.map (fun kv =>
            kv.1 ++ "=" ++ String.mk [dquoteChar] ++ kv.2 ++ String.mk [dquoteChar]))
    "<" ++ name ++ attrs ++ ">" ++ ssmlChildrenToText children ++ "</" ++ name ++ ">"

/-- The `"".join(...)` over the serialized children. -/
def ssmlChildrenToText (cs : List SSMLNode) : String :=
  match cs with
  | [] => ""
  | c :: rest => ssmlNodeToText c ++ ssmlChildrenToText rest

end

/-!
## Observations used by the claims
-/

/-- Whether a parse outcome is a failure. -/
def isError : Except SSMLError SSMLNode → Bool
  | .error _ => true
  | .ok _ => false

/-- Whether a parse outcome failed with the dialect-rule error kind (the
kind the specification calls `MalformedInputError`). -/
def isMalformedError : Except SSMLError SSMLNode → Bool
  | .error (.malformed _) => true
  | .error (.xmlParseError _) => false
  | .ok _ => false

/-- Whether a node is a `TagNode` named `"speak"`. -/
def isSpeakTag : SSMLNode → Bool
  | .tag n _ _ => n = "speak"
  | .text _ => false

/-- Unfolding of `build` on an arbitrary element. -/
theorem build_eq_tag (e : ETElem) : build e = SSMLNode.tag e.tag
    (e.attrib.map (fun kv => (restoreColonsKey kv.1, kv.2)))
    ((match e.text with
      | some t => if hasNonWhite t then [SSMLNode.text (htmlUnescape t)] else []
      | none => []) ++ buildChildren e.children) := by
  cases e
  rfl

/-!
## Spec-side serializer pieces (for the refinement claim C9)

These two definitions transcribe the specification's wording for the
serializer (spec §4.3), to be compared against `ssmlNodeToText`.
-/

/-- Spec-side attribute rendering: `attr1="v1" attr2="v2"` in the mapping's
iteration order, each value wrapped in double quotes, emitted verbatim. -/
def renderAttrsSpec (attrs : List (String × String)) : String :=
  String.intercalate " "
    (attrs.map (fun kv => kv.1 ++ "=" ++ String.mk [dquoteChar] ++ kv.2 ++ String.mk [dquoteChar]))

/-- Spec-side concatenation of the serialized children, in order. -/
def concatSpec : List String → String
  | [] => ""
  | s :: rest => s ++ concatSpec rest

theorem ssmlChildrenToText_eq (cs : List SSMLNode) :
    ssmlChildrenToText cs = concatSpec (cs.map ssmlNodeToText) := by
  induction cs with
  | nil => rfl
  | cons c rest ih => simp only [ssmlChildrenToText, concatSpec, List.map, ih]

/-!
## Claims
-/

/-- C5: whitespace padding inside tag delimiters is insignificant:
`parse("<speak></speak>")` and `parse("<  speak  ></  speak  >")` both
succeed and return structurally equal trees. -/
theorem claim_C5_tag_whitespace_insignificant :
    parseSSML "<speak></speak>" = .ok (SSMLNode.tag "speak" [] []) ∧
    parseSSML "<  speak  ></  speak  >" = .ok (SSMLNode.tag "speak" [] []) :=
  ⟨rfl, rfl⟩

/-- C6: an attribute literally named `xml:lang` with value `"en-US"` appears
under that exact key with that exact value in the resulting TagNode's
attribute mapping, both on the root element and on a nested element. -/
theorem claim_C6_colon_attribute_preserved :
    parseSSML "<speak xml:lang=\"en-US\"></speak>" =
      .ok (SSMLNode.tag "speak" [("xml:lang", "en-US")] []) ∧
    parseSSML "<speak><p xml:lang=\"en-US\">hi</p></speak>" =
      .ok (SSMLNode.tag "speak" []
        [SSMLNode.tag "p" [("xml:lang", "en-US")] [SSMLNode.text "hi"]]) :=
  ⟨rfl, rfl⟩

/-- C7: whitespace-only text and tails between tags are dropped:
`parse("<speak>   <p>hi</p>   </speak>")` returns a `speak` TagNode whose
children are exactly one `p` TagNode, with no surrounding TextNodes. -/
theorem claim_C7_whitespace_only_text_dropped :
    parseSSML "<speak>   <p>hi</p>   </speak>" =
      .ok (SSMLNode.tag "speak" [] [SSMLNode.tag "p" [] [SSMLNode.text "hi"]]) :=
  rfl

/-- C8: character references are decoded on parse and not re-encoded on
serialize: `parse("<speak>a &amp; b</speak>")` yields the TextNode
`"a & b"`, and serializing that tree emits `&` verbatim. -/
theorem claim_C8_references_decoded_not_reencoded :
    parseSSML "<speak>a &amp; b</speak>" =
      .ok (SSMLNode.tag "speak" [] [SSMLNode.text "a & b"]) ∧
    ssmlNodeToText (SSMLNode.tag "speak" [] [SSMLNode.text "a & b"]) =
      "<speak>a & b</speak>" :=
  ⟨rfl, rfl⟩

/-- C10: references are decoded twice (once by the XML parser, once by the
extra `html.unescape` pass), so `parse("<speak>&amp;amp;</speak>")` yields
`TextNode("&")`, not `TextNode("&amp;")`. -/
theorem claim_C10_double_unescape :
    parseSSML "<speak>&amp;amp;</speak>" =
      .ok (SSMLNode.tag "speak" [] [SSMLNode.text "&"]) :=
  rfl

/-- C9: the serializer renders a TextNode verbatim; a TagNode with nonempty
attribute mapping as `<name attrs>` + children + `</name>` with the
attributes in mapping order, each value double-quoted and verbatim; and a
TagNode with empty attribute mapping with no attribute section. -/
theorem claim_C9_serializer_shape :
    (∀ s, ssmlNodeToText (SSMLNode.text s) = s) ∧
    (∀ n attrs cs, attrs ≠ [] →
      ssmlNodeToText (SSMLNode.tag n attrs cs) =
        "<" ++ n ++ " " ++ renderAttrsSpec attrs ++ ">" ++
          concatSpec (cs.map ssmlNodeToText) ++ "</" ++ n ++ ">") ∧
    (∀ n cs, ssmlNodeToText (SSMLNode.tag n [] cs) =
      "<" ++ n ++ ">" ++ concatSpec (cs.map ssmlNodeToText) ++ "</" ++ n ++ ">") := by
  refine ⟨fun s => rfl, fun n attrs cs hne => ?_, fun n cs => ?_⟩
  · rw [ssmlNodeToText]
    rw [if_neg hne, ssmlChildrenToText_eq]
    simp only [renderAttrsSpec, String.append_assoc]
  · rw [ssmlNodeToText]
    rw [if_pos rfl, ssmlChildrenToText_eq]
    simp [String.append_assoc]

/-- Witness for C9 at a concrete tag with one attribute and one child. -/
theorem claim_C9_serializer_shape_witness :
    ssmlNodeToText (SSMLNode.tag "x" [("a", "1")] [SSMLNode.text "t"]) =
      "<" ++ "x" ++ " " ++ renderAttrsSpec [("a", "1")] ++ ">" ++
        concatSpec ([SSMLNode.text "t"].map ssmlNodeToText) ++ "</" ++ "x" ++ ">" :=
  claim_C9_serializer_shape.2.1 "x" [("a", "1")] [SSMLNode.text "t"]
    (List.cons_ne_nil _ _)

/-- C3: any input matching the single-quoted-attribute pattern `= '...'`
anywhere in the raw text fails with the dialect-rule error; the check never
fires on an input without a single quote, and a double-quoted attribute
parses successfully. -/
theorem claim_C3_single_quoted_rejected :
    (∀ s : String, hasSingleQuotedAttr s = true →
      parseSSML s = .error (.malformed "single-quoted attributes are not allowed")) ∧
    (∀ s : String, (∀ c ∈ s.data, c ≠ squoteChar) → hasSingleQuotedAttr s = false) ∧
    parseSSML "<speak a=\"b\"></speak>" = .ok (SSMLNode.tag "speak" [("a", "b")] []) := by
  refine ⟨fun s h => ?_, fun s h => ?_, rfl⟩
  · rw [parseSSML, if_pos h]
  · rw [hasSingleQuotedAttr]
    have : s.data.any (fun c => c = squoteChar) = false := by
      rw [List.any_eq_false]
      intro c hc
      simpa using h c hc
    rw [this]
    rfl

/-- An input carrying a single-quoted attribute value, built character-wise:
`<speak a='b'></speak>`. -/
def sqExampleInput : String :=
  "<speak a=" ++ String.mk [squoteChar] ++ "b" ++ String.mk [squoteChar] ++ "></speak>"

/-- Witness for C3 at the concrete single-quoted input, and for the
never-fires part at a quote-free input. -/
theorem claim_C3_single_quoted_rejected_witness :
    parseSSML sqExampleInput =
      .error (.malformed "single-quoted attributes are not allowed") ∧
    hasSingleQuotedAttr "<speak></speak>" = false :=
  ⟨claim_C3_single_quoted_rejected.1 sqExampleInput rfl,
   claim_C3_single_quoted_rejected.2.1 "<speak></speak>" (by decide)⟩

/-- C1: whenever the wrapped, preprocessed input parses to a synthetic root
with zero or several children (the input's top-level elements), or with
non-whitespace text before the single top-level element, or with
non-whitespace tail after it, `parseSSML` fails with an error. -/
theorem claim_C1_top_level_structure_enforced (s : String) (root : ETElem)
    (hroot : fromstring (wrapInput s) = .ok root)
    (hbad : root.children.length ≠ 1 ∨ optNonWhite root.text = true ∨
      (∃ c, root.children = [c] ∧ optNonWhite c.tail = true)) :
    isError (parseSSML s) = true := by
  rw [parseSSML]
  by_cases hq : hasSingleQuotedAttr s = true
  · rw [if_pos hq]; rfl
  · rw [if_neg hq, hroot]
    dsimp only
    by_cases ht : optNonWhite root.text = true
    · rw [if_pos ht]; rfl
    · rw [if_neg ht]
      rcases hbad with hlen | htext | ⟨c, hc, htail⟩
      · cases hch : root.children with
        | nil => rfl
        | cons a tl =>
          cases tl with
          | nil => exact absurd (show root.children.length = 1 by rw [hch]; rfl) hlen
          | cons b tl2 => rfl
      · exact absurd htext ht
      · rw [hc]
        dsimp only
        rw [if_pos htail]
        rfl

/-- The synthetic root produced for the two-top-level-element input of the
C1 witness. -/
def twoTopLevelRoot : ETElem :=
  ETElem.mk "root" [] none
    [ETElem.mk "p" [] none [] none, ETElem.mk "p" [] none [] none] none

/-- Witness for C1 at the concrete input `<p></p><p></p>`. -/
theorem claim_C1_top_level_structure_enforced_witness :
    isError (parseSSML "<p></p><p></p>") = true :=
  claim_C1_top_level_structure_enforced "<p></p><p></p>" twoTopLevelRoot rfl
    (Or.inl (by decide))

/-- C2: when the single top-level element of the input is not named `speak`
(exact, case-sensitive comparison) the parse fails; and whenever the parse
succeeds the returned root is a TagNode named `"speak"`. -/
theorem claim_C2_root_must_be_speak :
    (∀ (s : String) (root c : ETElem), fromstring (wrapInput s) = .ok root →
      root.children = [c] → c.tag ≠ "speak" → isError (parseSSML s) = true) ∧
    (∀ (s : String) (t : SSMLNode), parseSSML s = .ok t → isSpeakTag t = true) := by
  constructor
  · intro s root c hroot hc hne
    rw [parseSSML]
    by_cases hq : hasSingleQuotedAttr s = true
    · rw [if_pos hq]; rfl
    · rw [if_neg hq, hroot]
      dsimp only
      by_cases ht : optNonWhite root.text = true
      · rw [if_pos ht]; rfl
      · rw [if_neg ht, hc]
        dsimp only
        by_cases htl : optNonWhite c.tail = true
        · rw [if_pos htl]; rfl
        · rw [if_neg htl, build_eq_tag c]
          dsimp only
          rw [if_neg hne]
          rfl
  · intro s t h
    rw [parseSSML] at h
    split at h
    · exact absurd h (by simp)
    · split at h
      · exact absurd h (by simp)
      · split at h
        · exact absurd h (by simp)
        · split at h
          · split at h
            · exact absurd h (by simp)
            · split at h
              · split at h
                · rename_i n a k hn
                  simp only [Except.ok.injEq] at h
                  subst h
                  simp [isSpeakTag, hn]
                · exact absurd h (by simp)
              · exact absurd h (by simp)
          · exact absurd h (by simp)

/-- The synthetic root produced for the non-speak input of the C2 witness. -/
def nonSpeakRoot : ETElem :=
  ETElem.mk "root" [] none [ETElem.mk "p" [] none [] none] none

/-- Witness for C2: the non-speak input `<p></p>` fails, and the successful
parse of `<speak></speak>` returns a TagNode named speak. -/
theorem claim_C2_root_must_be_speak_witness :
    isError (parseSSML "<p></p>") = true ∧
    isSpeakTag (SSMLNode.tag "speak" [] []) = true :=
  ⟨claim_C2_root_must_be_speak.1 "<p></p>" nonSpeakRoot
      (ETElem.mk "p" [] none [] none) rfl rfl (by decide),
   claim_C2_root_must_be_speak.2 "<speak></speak>" (SSMLNode.tag "speak" [] []) rfl⟩

/-- Whether an error value is the XML-parser kind. -/
def errKindIsXml : SSMLError → Bool
  | .malformed _ => false
  | .xmlParseError _ => true

/-- The reason string carried by an error value. -/
def errMsg : SSMLError → String
  | .malformed m => m
  | .xmlParseError m => m

/-- C4 counterexample: the unclosed input `<speak>` makes the parse fail,
but with the XML parser's own error type propagated unwrapped (the code
re-raises `ET.ParseError`, lines 83-87 of src/ssml.py), not with the
dialect-rule error kind the claim requires for every failure. -/
theorem claim_C4_counterexample :
    parseSSML "<speak>" = .error (.xmlParseError "mismatched tag") ∧
    isError (parseSSML "<speak>") = true ∧
    isMalformedError (parseSSML "<speak>") = false :=
  ⟨rfl, rfl, rfl⟩

/-- C4 amended: every failure of parse is either the dialect-rule error kind
carrying one of the four reason strings, or the XML parser's error
propagated unwrapped, carrying exactly the underlying parser's reason. -/
theorem claim_C4_amended_error_kinds (s : String) (e : SSMLError)
    (h : parseSSML s = .error e) :
    (e = .malformed "single-quoted attributes are not allowed" ∨
     e = .malformed "Invalid top-level text" ∨
     e = .malformed "Multiple top-level tags or missing speak tag" ∨
     e = .malformed "Top-level tag must be <speak>") ∨
    (errKindIsXml e = true ∧ fromstring (wrapInput s) = .error (errMsg e)) := by
  rw [parseSSML] at h
  by_cases hq : hasSingleQuotedAttr s = true
  · rw [if_pos hq] at h
    left
    refine Or.inl ?_
    injection h with h1
    exact h1.symm
  · rw [if_neg hq] at h
    cases hfs : fromstring (wrapInput s) with
    | error m =>
      rw [hfs] at h
      dsimp only at h
      injection h with h1
      subst h1
      right
      exact ⟨rfl, rfl⟩
    | ok root =>
      rw [hfs] at h
      dsimp only at h
      by_cases ht : optNonWhite root.text = true
      · rw [if_pos ht] at h
        left
        refine Or.inr (Or.inl ?_)
        injection h with h1
        exact h1.symm
      · rw [if_neg ht] at h
        cases hch : root.children with
        | nil =>
          rw [hch] at h
          dsimp only at h
          left
          refine Or.inr (Or.inr (Or.inl ?_))
          injection h with h1
          exact h1.symm
        | cons a tl =>
          cases tl with
          | cons b tl2 =>
            rw [hch] at h
            dsimp only at h
            left
            refine Or.inr (Or.inr (Or.inl ?_))
            injection h with h1
            exact h1.symm
          | nil =>
            rw [hch] at h
            dsimp only at h
            by_cases htl : optNonWhite a.tail = true
            · rw [if_pos htl] at h
              left
              refine Or.inr (Or.inl ?_)
              injection h with h1
              exact h1.symm
            · rw [if_neg htl, build_eq_tag a] at h
              dsimp only at h
              by_cases hn : a.tag = "speak"
              · rw [if_pos hn] at h
                exact absurd h (by simp)
              · rw [if_neg hn] at h
                left
                refine Or.inr (Or.inr (Or.inr ?_))
                injection h with h1
                exact h1.symm

/-- Witness for the amended C4 at the concrete unclosed input `<speak>`. -/
theorem claim_C4_amended_error_kinds_witness :
    (SSMLError.xmlParseError "mismatched tag" =
        .malformed "single-quoted attributes are not allowed" ∨
     SSMLError.xmlParseError "mismatched tag" = .malformed "Invalid top-level text" ∨
     SSMLError.xmlParseError "mismatched tag" =
        .malformed "Multiple top-level tags or missing speak tag" ∨
     SSMLError.xmlParseError "mismatched tag" = .malformed "Top-level tag must be <speak>") ∨
    (errKindIsXml (SSMLError.xmlParseError "mismatched tag") = true ∧
     fromstring (wrapInput "<speak>") =
        .error (errMsg (SSMLError.xmlParseError "mismatched tag"))) :=
  claim_C4_amended_error_kinds "<speak>" (.xmlParseError "mismatched tag") rfl

end SSMLVerif
